import Mathlib

/-!
Shallow embedding of the NIDAAN-AI triage backend (src/main.py,
src/main_multilanguage.py, src/llm.py, src/sarvam_translator.py).

Python values appearing in provider JSON are modelled by `JValue`
(strings, integers, booleans, null); parsed provider responses are
association lists `Dict`.  Statements that can raise a Python exception
(`.upper()` on a non-string, `len()` of a non-sized value) are modelled
in `Except String`, where `.error` means an uncaught exception escaping
the endpoint.  Logging, audit-trail and anonymization calls that do not
influence the response are omitted, except where an eagerly evaluated
logging argument can itself raise (main.py lines 169-170).  External
providers (Gemini, Sarvam, network) are passed in as behaviour
parameters, so theorems can quantify over provider availability.
-/

namespace Nidaan

/-- JSON-ish Python value as produced by `json.loads` on provider output.
(Arrays/objects are not needed by any statement below.) -/
inductive JValue where
  | str (s : String)
  | num (n : Int)
  | bool (b : Bool)
  | null
deriving DecidableEq

/-- A parsed Python dict (association list; literal dicts in the source
have distinct keys, so first-match lookup coincides with Python). -/
def Dict := List (String × JValue)

instance : DecidableEq Dict := by
  unfold Dict
  infer_instance

/-- Python `d.get(k)`. -/
def dictGet? (d : Dict) (k : String) : Option JValue :=
  (d.find? (fun p => p.1 = k)).map (fun p => p.2)

/-- Python `d.get(k, v)`. -/
def dictGetD (d : Dict) (k : String) (v : JValue) : JValue :=
  (dictGet? d k).getD v

/-- Python `k in d`. -/
def containsKey (d : Dict) (k : String) : Bool :=
  (dictGet? d k).isSome

/-- Whether a `JValue` is a string. -/
def JValue.isStr : JValue → Bool
  | .str _ => true
  | _ => false

/-- Python `str()` conversion as used by f-string interpolation. -/
def jToStr : JValue → String
  | .str s => s
  | .num n => toString n
  | .bool b => if b then "True" else "False"
  | .null => "None"

/-- Python `str.lower()` (ASCII case folding suffices for the
all-ASCII keyword lists of the source). -/
def pyLower (s : String) : String :=
  String.mk (s.data.map Char.toLower)

/-- Python `str.upper()` (ASCII case folding). -/
def pyUpper (s : String) : String :=
  String.mk (s.data.map Char.toUpper)

/-- Whitespace stripped by Python `str.strip()` (ASCII fragment). -/
def isPySpace (c : Char) : Bool :=
  c = ' ' ∨ c = '\t' ∨ c = '\n' ∨ c = '\r' ∨ c = '\x0b' ∨ c = '\x0c'

/-- Python `str.strip()`. -/
def pyStrip (s : String) : String :=
  String.mk (((s.data.dropWhile isPySpace).reverse.dropWhile isPySpace).reverse)

/-- Python substring test `needle in hay`. -/
def strContains (hay needle : String) : Bool :=
  decide (needle.data <:+: hay.data)

/-- Python `s.startswith(pre)`. -/
def pyStartsWith (s pre : String) : Bool :=
  decide (pre.data <+: s.data)

/-- Python `v.upper()` on a `JValue`: raises `AttributeError` unless the
value is a string. -/
def pyUpperJ : JValue → Except String String
  | .str s => .ok (pyUpper s)
  | _ => .error "AttributeError: object has no attribute upper"

/-- Python `len(v)` on a `JValue`: of the modelled value shapes only
strings have a length; the rest raise `TypeError`. -/
def pyLenJ : JValue → Except String Nat
  | .str s => .ok s.length
  | _ => .error "TypeError: object has no len"

/-- Image payload bytes (content is opaque to every claim). -/
abbrev Bytes := List Nat

/-- Behaviour of one invocation of the AI client as observed by the
endpoints: either `call_llm` raises, or it returns a parsed dict. -/
inductive LlmOutcome where
  | raises (msg : String)
  | returns (d : Dict)
deriving DecidableEq

/-- The AI client as a function of what the orchestrator sends it. -/
abbrev LlmFun := String → Option Bytes → LlmOutcome

/-- Outward response of the analyze endpoints.  Only the fields every
claim speaks about are kept; `advice` is returned raw by the source
(it is whatever JSON value the provider sent), `doctor_summary` is
always built by f-string interpolation, hence a string. -/
structure Response where
  risk : String
  doctor_summary : String
  advice : JValue
  status : String
deriving DecidableEq

/-- main.py lines 87-91: the urgent-keyword list of the single-language
pipeline ("can't breathe" is spelled via an explicit apostrophe char). -/
def kwCantBreathe : String :=
  "can" ++ String.singleton (Char.ofNat 39) ++ "t breathe"

def urgent_keywords_main : List String :=
  ["chest pain", "breathless", "unconscious", "bleeding heavily",
   "severe headache", kwCantBreathe, "heart attack", "stroke",
   "poisoning", "severe burn", "seizure"]

/-- main.py lines 78-83: the `incomplete_input` short-circuit response. -/
def incompleteResp : Response :=
  { risk := "LOW"
    doctor_summary := "Insufficient symptom detail provided."
    advice := .str "Please add more details for better guidance."
    status := "incomplete_input" }

/-- main.py lines 98-104: the emergency short-circuit response. -/
def emergencyMainResp : Response :=
  { risk := "HIGH"
    doctor_summary := "⚠️ Severe symptoms detected requiring urgent attention."
    advice := .str "🚨 IMMEDIATE ACTION: Seek emergency care NOW. Call 108 or visit nearest hospital immediately."
    status := "emergency_detected" }

/-- main.py lines 139-146: response when `call_llm` raises. -/
def aiErrorResp : Response :=
  { risk := "ERROR"
    doctor_summary := "System temporarily unavailable"
    advice := .str "Please try again or consult a doctor directly."
    status := "ai_error" }

def valid_risks : List String :=
  ["LOW", "MODERATE", "HIGH"]

/-- main.py lines 183-196: the formatted doctor summary. -/
def mainSummary (docS riskS advS : String) : String :=
  pyStrip ("\nAI TRIAGE SUMMARY\n━━━━━━━━━━━━━━━━━━━━━━━━━━━━━\nSymptoms Analysis: "
    ++ docS ++ "\n\nRisk Level: " ++ riskS ++ "\n\nRecommended Action:\n" ++ advS
    ++ "\n\n━━━━━━━━━━━━━━━━━━━━━━━━━━━━━\n⚕️ Note: This is AI-assisted triage, not a medical diagnosis.\nFor definitive care, please consult a qualified healthcare provider.\n")

/-- main.py `analyze` (lines 54-212).  `.error` models an exception
escaping the endpoint.  Image reading (best-effort, lines 108-124) only
determines the `image_bytes` argument and is folded into it. -/
def analyzeMain (llm : LlmFun) (symptom_text : String)
    (image_bytes : Option Bytes) : Except String Response :=
  if (pyStrip symptom_text).length < 5 then
    .ok incompleteResp
  else
    let symptom_lower := pyLower symptom_text
    let found_urgent := urgent_keywords_main.filter (fun kw => strContains symptom_lower kw)
    if found_urgent ≠ [] then
      .ok emergencyMainResp
    else
      match llm symptom_text image_bytes with
      | .raises _ => .ok aiErrorResp
      | .returns result =>
        if containsKey result "error" then
          .ok { risk := "MODERATE"
                doctor_summary := "Analysis incomplete: "
                  ++ jToStr (dictGetD result "error" (.str "Unknown error"))
                advice := .str "Please consult a medical professional for proper evaluation."
                status := "ai_partial_failure" }
        else
          let docJ := dictGetD result "doctor_summary" (.str "No detailed summary available")
          -- line 165: risk_level = result.get('risk', 'MODERATE').upper()
          match pyUpperJ (dictGetD result "risk" (.str "MODERATE")) with
          | .error e => .error e
          | .ok risk0 =>
            let advJ := dictGetD result "advice" (.str "Please consult a medical professional.")
            -- lines 169-170: len(doc_sum) / len(advice_text) inside eager log args
            match pyLenJ docJ with
            | .error e => .error e
            | .ok _ =>
              match pyLenJ advJ with
              | .error e => .error e
              | .ok _ =>
                let risk_level := if valid_risks.contains risk0 then risk0 else "MODERATE"
                .ok { risk := risk_level
                      doctor_summary := mainSummary (jToStr docJ) risk_level (jToStr advJ)
                      advice := advJ
                      status := "success" }

/-! ### Translation adapter (src/sarvam_translator.py) -/

/-- Result dict of the translation adapter (sarvam_translator.py).
Every constructed dict carries `success` and `original_text`; the other
keys appear only on some paths and are modelled as options.  The
`skipped` key exists only on the English passthrough results (modelled
as a flag defaulting to `false` = key absent).  The float `confidence`
metadata of the 200-path is not modelled (no claim mentions it). -/
structure TransResult where
  success : Bool
  original_text : String
  translated_text : Option String := none
  error : Option String := none
  details : Option String := none
  source_language : Option String := none
  target_language : Option String := none
  detected_language : Option String := none
  skipped : Bool := false
deriving DecidableEq

/-- Behaviour of one HTTP POST to the Sarvam endpoint
(sarvam_translator.py lines 105-157): it can time out, raise some other
exception, or deliver a response with a status code, the parsed body's
`translated_text` / `detected_language` fields, and the raw body text.
(A 200 body that is not JSON surfaces as `exc`, matching the generic
`except` clause.) -/
inductive NetOutcome where
  | timeout
  | exc (msg : String)
  | response (status : Nat) (bodyTranslated : Option String)
      (bodyDetected : Option String) (rawText : String)
deriving DecidableEq

/-- The network as a function of (input text, source code, target code). -/
abbrev NetFun := String → String → String → NetOutcome

/-- sarvam_translator.py lines 21-32: LANGUAGE_CODES. -/
def LANGUAGE_CODES : List (String × String) :=
  [("English", "en-IN"), ("हिंदी", "hi-IN"), ("தமிழ்", "ta-IN"),
   ("తెలుగు", "te-IN"), ("मराठी", "mr-IN"), ("ಕನ್ನಡ", "kn-IN"),
   ("বাংলা", "bn-IN"), ("ગુજરાતી", "gu-IN"), ("മലയാളം", "ml-IN"),
   ("ਪੰਜਾਬੀ", "pa-IN")]

/-- sarvam_translator.py lines 188-198: `get_language_code`,
defaulting unknown names to the English code. -/
def get_language_code (language_name : String) : String :=
  ((LANGUAGE_CODES.find? (fun p => p.1 = language_name)).map (fun p => p.2)).getD "en-IN"

/-- sarvam_translator.py `SarvamTranslator.translate` (lines 54-157).
`enabled` is the startup configuration flag (`SARVAM_API_KEY` present);
`net` is the behaviour of the HTTP call.  The source wraps the whole
network interaction in try/except, so this function is total: the
adapter never raises past its boundary. -/
def translate (enabled : Bool) (net : NetFun)
    (text source_lang target_lang : String) : TransResult :=
  if ¬ enabled then
    { success := false
      error := some "Translation service not configured"
      original_text := text }
  else
    match net text source_lang target_lang with
    | .timeout =>
      { success := false
        error := some "Translation request timed out"
        original_text := text }
    | .exc m =>
      { success := false
        error := some m
        original_text := text }
    | .response status bodyTranslated bodyDetected rawText =>
      if status = 200 then
        { success := true
          original_text := text
          translated_text := some (bodyTranslated.getD "")
          source_language := some source_lang
          target_language := some target_lang
          detected_language := bodyDetected }
      else
        { success := false
          error := some ("API returned status " ++ toString status)
          original_text := text
          details := some rawText }

/-- sarvam_translator.py lines 232-241 / 269-278: the English
passthrough result (same shape for both directions). -/
def englishPassthrough (text : String) : TransResult :=
  { success := true
    original_text := text
    translated_text := some text
    source_language := some "en-IN"
    target_language := some "en-IN"
    skipped := true }

/-- sarvam_translator.py `translate_to_english` (lines 217-251). -/
def translate_to_english (enabled : Bool) (net : NetFun)
    (text source_language : String) : TransResult :=
  if source_language = "English" then
    englishPassthrough text
  else
    translate enabled net text (get_language_code source_language) "en-IN"

/-- sarvam_translator.py `translate_from_english` (lines 254-288). -/
def translate_from_english (enabled : Bool) (net : NetFun)
    (text target_language : String) : TransResult :=
  if target_language = "English" then
    englishPassthrough text
  else
    translate enabled net text "en-IN" (get_language_code target_language)

/-! ### AI triage client (src/llm.py) -/

/-- Behaviour of `model.generate_content` plus the `response.text`
accessor: the provider call raises (transport/provider exception with a
class name and message), or yields a response whose `.text` is `none`
(Python `None`) or a (possibly empty) string. -/
inductive GeminiOutcome where
  | raises (excName msg : String)
  | ok (text : Option String)
deriving DecidableEq

/-- Python truthiness of `response.text` (`if not response.text`). -/
def textFalsy : Option String → Bool
  | none => true
  | some s => s = ""

/-- llm.py `call_llm` (lines 69-207), modelled over an abstract JSON
parser `parse` (`json.loads`: returns the parsed dict or the decode
error message) and the provider behaviour `gem`.  The PIL image decode
(lines 107-124) is wrapped in try/except in the source and only affects
what is attached to the provider request, never the returned value, so
the image bytes are carried but unused.  The function is total: every
path returns a dict. -/
def call_llm (parse : String → Except String Dict) (gem : GeminiOutcome)
    (symptom_text : String) (image_bytes : Option Bytes) : Dict :=
  match gem with
  | .raises excName msg =>
    [("error", .str "Failed to fetch the details"),
     ("raw_error", .str msg),
     ("exception_type", .str excName)]
  | .ok text =>
    if textFalsy text then
      [("error", .str "Empty response from AI"),
       ("raw_error", .str "Response text was empty or None")]
    else
      let s := text.getD ""
      match parse s with
      | .error e =>
        [("error", .str "Failed to parse AI response as JSON"),
         ("raw_error", .str e),
         ("raw_text", .str (s.take 500))]
      | .ok parsed => parsed

/-! ### Multi-language pipeline (src/main_multilanguage.py) -/

/-- main_multilanguage.py line 72. -/
def CONSENT_REQUIRED : Bool := true

/-- main_multilanguage.py lines 186-194: consent-gate response. -/
def consentRequiredResp : Response :=
  { risk := "ERROR"
    doctor_summary := "Consent required to proceed"
    advice := .str "Please accept the terms and conditions to use this service."
    status := "consent_required" }

/-- main_multilanguage.py lines 243-247: the urgent-keyword list of the
multi-language pipeline (two phrases more than the single-language one). -/
def urgent_keywords_ml : List String :=
  urgent_keywords_main ++ ["suicide", "overdose"]

/-- main_multilanguage.py lines 256-267: fixed English emergency texts. -/
def mlEmergencySummary : String :=
  "⚠️ EMERGENCY: Severe symptoms detected requiring IMMEDIATE medical attention."

def mlEmergencyAdvice : String :=
  "🚨 CALL 108 NOW or visit nearest emergency room immediately. Do not delay."

/-- main_multilanguage.py lines 306-312: response when `call_llm` raises
(same user-facing fields as the single-language variant). -/
def mlAiErrorResp : Response :=
  aiErrorResp

/-- main_multilanguage.py lines 318-323: structured-error fallback. -/
def mlPartialFailureResp : Response :=
  { risk := "MODERATE"
    doctor_summary := "Analysis incomplete"
    advice := .str "Please consult a medical professional."
    status := "ai_partial_failure" }

def DATA_RETENTION_DAYS : Nat := 90

/-- main_multilanguage.py lines 355-370: the formatted doctor summary. -/
def mlSummary (docS riskS advS : String) : String :=
  pyStrip ("\nAI TRIAGE SUMMARY\n━━━━━━━━━━━━━━━━━━━━━━━━━━━━━\n"
    ++ docS ++ "\n\nRisk Level: " ++ riskS ++ "\n\nRecommended Action:\n" ++ advS
    ++ "\n\n━━━━━━━━━━━━━━━━━━━━━━━━━━━━━\n⚕️ Medical Disclaimer: This is AI-assisted triage, NOT a medical diagnosis.\nAlways consult a qualified healthcare provider for proper evaluation.\n\n📋 Data Privacy: Your data is processed securely and will be auto-deleted after "
    ++ toString DATA_RETENTION_DAYS ++ " days.\n")

/-- main_multilanguage.py lines 215-239 (step 3): the working symptom
text after the inbound-translation stage; on any translation failure the
original text is kept.  (`translate_to_english` is total, so the
surrounding try/except is dead in the model.) -/
def mlWorkingText (enabled : Bool) (net : NetFun)
    (symptom_text user_language : String) : String :=
  if user_language ≠ "English" then
    let tr := translate_to_english enabled net symptom_text user_language
    if tr.success then tr.translated_text.getD symptom_text else symptom_text
  else
    symptom_text

/-- main_multilanguage.py lines 269-281: best-effort re-translation of
one emergency-response field; on success the source stores
`trans.get("translated_text")`, which the 200-path always populates
(`translate` sets `translated_text` on every success), so the `getD`
fallback here is unreachable. -/
def mlTranslateField (enabled : Bool) (net : NetFun)
    (text user_language : String) : String :=
  let tr := translate_from_english enabled net text user_language
  if tr.success then tr.translated_text.getD text else text

/-- main_multilanguage.py `analyze` (lines 165-389).  Anonymization
(step 2) and audit logging feed only log lines, not the response, and
are omitted.  `.error` models an exception escaping the endpoint. -/
def analyzeML (enabled : Bool) (net : NetFun) (llm : LlmFun)
    (symptom_text user_language : String) (image_bytes : Option Bytes)
    (consent_given : Bool) : Except String Response :=
  if CONSENT_REQUIRED ∧ ¬ consent_given then
    .ok consentRequiredResp
  else if (pyStrip symptom_text).length < 5 then
    .ok incompleteResp
  else
    let english_symptoms := mlWorkingText enabled net symptom_text user_language
    let symptom_lower := pyLower english_symptoms
    let found_urgent := urgent_keywords_ml.filter (fun kw => strContains symptom_lower kw)
    if found_urgent ≠ [] then
      -- lines 252-283: emergency short-circuit, with best-effort
      -- re-translation of the two human-readable fields
      if user_language ≠ "English" then
        .ok { risk := "HIGH"
              doctor_summary := mlTranslateField enabled net mlEmergencySummary user_language
              advice := .str (mlTranslateField enabled net mlEmergencyAdvice user_language)
              status := "emergency_detected" }
      else
        .ok { risk := "HIGH"
              doctor_summary := mlEmergencySummary
              advice := .str mlEmergencyAdvice
              status := "emergency_detected" }
    else
      match llm english_symptoms image_bytes with
      | .raises _ => .ok mlAiErrorResp
      | .returns result =>
        if containsKey result "error" then
          .ok mlPartialFailureResp
        else
          let docJ := dictGetD result "doctor_summary" (.str "No detailed summary available")
          -- line 326: risk_level = result.get('risk', 'MODERATE').upper()
          -- NOTE: unlike main.py, no validation against valid_risks follows
          match pyUpperJ (dictGetD result "risk" (.str "MODERATE")) with
          | .error e => .error e
          | .ok risk_level =>
            let advJ := dictGetD result "advice" (.str "Please consult a medical professional.")
            -- step 8 (lines 332-350): best-effort outbound translation
            if user_language ≠ "English" then
              let t1 := translate_from_english enabled net (jToStr docJ) user_language
              let docS := if t1.success then t1.translated_text.getD (jToStr docJ) else jToStr docJ
              let t2 := translate_from_english enabled net (jToStr advJ) user_language
              let advF : JValue :=
                if t2.success then .str (t2.translated_text.getD (jToStr advJ)) else advJ
              .ok { risk := risk_level
                    doctor_summary := mlSummary docS risk_level (jToStr advF)
                    advice := advF
                    status := "success" }
            else
              .ok { risk := risk_level
                    doctor_summary := mlSummary (jToStr docJ) risk_level (jToStr advJ)
                    advice := advJ
                    status := "success" }

/-! ### Messaging endpoint (src/main_multilanguage.py `send_whatsapp`) -/

/-- main_multilanguage.py line 414: keep only digit characters. -/
def clean_digits (phone_number : String) : String :=
  String.mk (phone_number.data.filter Char.isDigit)

/-- main_multilanguage.py lines 413-417: normalized destination address
for the messaging provider. -/
def format_whatsapp_to (phone_number : String) : String :=
  let c0 := clean_digits phone_number
  let c := if ¬ pyStartsWith c0 "91" ∧ c0.length = 10 then "91" ++ c0 else c0
  "whatsapp:+" ++ c

/-! ### Concrete provider behaviours used by witnesses and counterexamples -/

/-- Network that always times out. -/
def netTimeout : NetFun := fun _ _ _ => .timeout

/-- Network that always answers 503. -/
def net503 : NetFun := fun _ _ _ => .response 503 none none "Service Unavailable"

/-- Translation-provider mock that returns the input text unchanged
(successfully) for every call, in both directions. -/
def identityNet : NetFun := fun text _ _ => .response 200 (some text) none ""

/-- AI client returning an empty dict. -/
def llmEmptyDict : LlmFun := fun _ _ => .returns []

/-- AI client returning a JSON object whose `risk` field is the number 3. -/
def llmNumRisk : LlmFun := fun _ _ => .returns [("risk", .num 3)]

/-- AI client returning the unrecognized risk string "unknown". -/
def llmUnknownRisk : LlmFun :=
  fun _ _ => .returns
    [("risk", .str "unknown"), ("doctor_summary", .str "Mild cough reported."),
     ("advice", .str "Rest and hydrate.")]

/-- AI client returning a well-formed LOW-risk result. -/
def llmLowRisk : LlmFun :=
  fun _ _ => .returns
    [("risk", .str "LOW"), ("doctor_summary", .str "Mild symptoms."),
     ("advice", .str "Rest and hydrate.")]

/-- A structurally well-typed AI result dict: no `error` key, risk a
string that upper-cases into the accepted set, summary and advice
strings when present (the shapes on which neither endpoint can raise). -/
def goodLlmDict (d : Dict) : Prop :=
  containsKey d "error" = false ∧
  (∃ s, dictGetD d "risk" (.str "MODERATE") = .str s ∧
    valid_risks.contains (pyUpper s) = true) ∧
  (dictGetD d "doctor_summary" (.str "No detailed summary available")).isStr = true ∧
  (dictGetD d "advice" (.str "Please consult a medical professional.")).isStr = true

/-- The AI behaviours at a given call site that the spec's failure
semantics budget for: a raised transport exception, a structured error
outcome, or a well-typed success outcome. -/
def benignLlmAt (llm : LlmFun) (t : String) (img : Option Bytes) : Prop :=
  (∃ m, llm t img = .raises m) ∨
  (∃ d, llm t img = .returns d ∧ (containsKey d "error" = true ∨ goodLlmDict d))

/-! ### Helper lemmas -/

theorem filter_ne_nil_of_mem {α : Type} {l : List α} {p : α → Bool} {x : α}
    (hx : x ∈ l) (hp : p x = true) : l.filter p ≠ [] := by
  intro h
  have : x ∈ l.filter p := List.mem_filter.mpr ⟨hx, hp⟩
  rw [h] at this
  exact (List.not_mem_nil x) this

theorem mlWorkingText_of_failure {enabled : Bool} {net : NetFun}
    {t lang : String} (hlang : lang ≠ "English")
    (hfail : (translate_to_english enabled net t lang).success = false) :
    mlWorkingText enabled net t lang = t := by
  unfold mlWorkingText
  rw [if_pos hlang]
  simp only [hfail]
  simp

theorem mlWorkingText_identity (t lang : String) :
    mlWorkingText true identityNet t lang = t := by
  unfold mlWorkingText
  by_cases h : lang = "English"
  · rw [if_neg]; simp [h]
  · rw [if_pos h]
    unfold translate_to_english
    rw [if_neg h]
    unfold translate identityNet
    simp

/-- The outward risk of an endpoint outcome (`none` = an exception
escaped, so no risk was produced). -/
def riskOf : Except String Response → Option String
  | .ok r => some r.risk
  | .error _ => none

/-- The outward status tag of an endpoint outcome. -/
def statusOf : Except String Response → Option String
  | .ok r => some r.status
  | .error _ => none

theorem isStr_iff {v : JValue} : v.isStr = true ↔ ∃ s, v = .str s := by
  cases v <;> simp [JValue.isStr]

/-! ### Claim theorems -/

/-- C1: for every symptom text of trimmed length ≥ 5 (with consent
granted in the multi-language variant) whose lower-cased working text
contains a configured urgent phrase as a substring, both analyze
pipelines return risk=HIGH and status=emergency_detected, and the
result is independent of the AI client behaviour (the AI is never
invoked), regardless of AI-provider availability.  In the
multi-language variant the scan runs on the working text produced by
the inbound-translation stage (spec §4.1/§4.5 step 5), which equals the
submitted text whenever the language is English or translation fails. -/
theorem C1_emergency_short_circuit :
    (∀ (llm llm2 : LlmFun) (t : String) (img img2 : Option Bytes) (kw : String),
      ¬ (pyStrip t).length < 5 →
      kw ∈ urgent_keywords_main →
      strContains (pyLower t) kw = true →
      analyzeMain llm t img = .ok emergencyMainResp ∧
      analyzeMain llm t img = analyzeMain llm2 t img2) ∧
    (∀ (enabled : Bool) (net : NetFun) (llm llm2 : LlmFun) (t lang : String)
      (img img2 : Option Bytes) (kw : String),
      ¬ (pyStrip t).length < 5 →
      kw ∈ urgent_keywords_ml →
      strContains (pyLower (mlWorkingText enabled net t lang)) kw = true →
      riskOf (analyzeML enabled net llm t lang img true) = some "HIGH" ∧
      statusOf (analyzeML enabled net llm t lang img true) = some "emergency_detected" ∧
      analyzeML enabled net llm t lang img true =
        analyzeML enabled net llm2 t lang img2 true) := by
  constructor
  · intro llm llm2 t img img2 kw hlen hmem hcon
    have hne : urgent_keywords_main.filter (fun k => strContains (pyLower t) k) ≠ [] :=
      filter_ne_nil_of_mem hmem hcon
    constructor <;> simp [analyzeMain, hlen, hne]
  · intro enabled net llm llm2 t lang img img2 kw hlen hmem hcon
    have hex : ∃ x ∈ urgent_keywords_ml,
        strContains (pyLower (mlWorkingText enabled net t lang)) x = true :=
      ⟨kw, hmem, hcon⟩
    by_cases hl : lang = "English"
    · subst hl
      refine ⟨?_, ?_, ?_⟩ <;>
        simp [analyzeML, CONSENT_REQUIRED, hlen, hex, riskOf, statusOf]
    · refine ⟨?_, ?_, ?_⟩ <;>
        simp [analyzeML, CONSENT_REQUIRED, hlen, hex, hl, riskOf, statusOf]

/-- Witness for C1: "severe chest pain now" triggers the emergency
short-circuit in both pipelines, with two different AI behaviours. -/
theorem C1_witness :
    (analyzeMain llmEmptyDict "severe chest pain now" none = .ok emergencyMainResp ∧
      analyzeMain llmEmptyDict "severe chest pain now" none =
        analyzeMain llmNumRisk "severe chest pain now" none) ∧
    (riskOf (analyzeML false netTimeout llmEmptyDict "severe chest pain now" "English" none true) =
        some "HIGH" ∧
      statusOf (analyzeML false netTimeout llmEmptyDict "severe chest pain now" "English" none true) =
        some "emergency_detected" ∧
      analyzeML false netTimeout llmEmptyDict "severe chest pain now" "English" none true =
        analyzeML false netTimeout llmNumRisk "severe chest pain now" "English" none true) :=
  ⟨C1_emergency_short_circuit.1 llmEmptyDict llmNumRisk "severe chest pain now" none none
      "chest pain" (by decide) (by decide) (by decide),
   C1_emergency_short_circuit.2 false netTimeout llmEmptyDict llmNumRisk
      "severe chest pain now" "English" none none "chest pain"
      (by decide) (by decide) (by decide)⟩

/-- C2 (amended): for every symptom text of trimmed length < 5, the
single-language pipeline — and, provided consent is granted, the
multi-language pipeline — returns risk=LOW with status=incomplete_input,
independently of the AI client, the translation network and the
configuration flags (no provider is contacted). -/
theorem C2_incomplete_input_short_circuit :
    (∀ (llm llm2 : LlmFun) (t : String) (img img2 : Option Bytes),
      (pyStrip t).length < 5 →
      analyzeMain llm t img = .ok incompleteResp ∧
      analyzeMain llm t img = analyzeMain llm2 t img2) ∧
    (∀ (enabled enabled2 : Bool) (net net2 : NetFun) (llm llm2 : LlmFun)
      (t lang lang2 : String) (img img2 : Option Bytes),
      (pyStrip t).length < 5 →
      analyzeML enabled net llm t lang img true = .ok incompleteResp ∧
      analyzeML enabled net llm t lang img true =
        analyzeML enabled2 net2 llm2 t lang2 img2 true) := by
  constructor
  · intro llm llm2 t img img2 hlen
    constructor <;> simp [analyzeMain, hlen]
  · intro enabled enabled2 net net2 llm llm2 t lang lang2 img img2 hlen
    constructor <;> simp [analyzeML, CONSENT_REQUIRED, hlen]

/-- Witness for C2: the two-character text "ok" short-circuits both
pipelines as incomplete, for two different provider environments. -/
theorem C2_witness :
    (analyzeMain llmEmptyDict "ok" none = .ok incompleteResp ∧
      analyzeMain llmEmptyDict "ok" none = analyzeMain llmNumRisk "ok" (some [1]) ) ∧
    (analyzeML true netTimeout llmEmptyDict "ok" "हिंदी" none true = .ok incompleteResp ∧
      analyzeML true netTimeout llmEmptyDict "ok" "हिंदी" none true =
        analyzeML false net503 llmNumRisk "ok" "English" (some [1]) true) :=
  ⟨C2_incomplete_input_short_circuit.1 llmEmptyDict llmNumRisk "ok" none (some [1])
      (by decide),
   C2_incomplete_input_short_circuit.2 true false netTimeout net503 llmEmptyDict llmNumRisk
      "ok" "हिंदी" "English" none (some [1]) (by decide)⟩

/-- Counterexample for C2 as stated: in the multi-language variant the
consent gate precedes the length check, so the short text "hi" without
consent yields status=consent_required with risk=ERROR, not
risk=LOW/status=incomplete_input. -/
theorem C2_counterexample :
    (pyStrip "hi").length < 5 ∧
    analyzeML true netTimeout llmEmptyDict "hi" "English" none false =
      .ok consentRequiredResp ∧
    consentRequiredResp.risk ≠ "LOW" ∧
    consentRequiredResp.status ≠ "incomplete_input" :=
  ⟨by decide, rfl, by decide, by decide⟩

/-- C3: the code contradicts the never-raise failure semantics.  When
the AI client returns the JSON object `{"risk": 3}` (a well-formed dict
with a non-string risk field), both endpoints evaluate
`result.get('risk', 'MODERATE').upper()` and raise `AttributeError`,
which escapes the endpoint instead of producing a MODERATE/ERROR
response. -/
theorem C3_nonstring_risk_raises :
    analyzeMain llmNumRisk "persistent mild headache" none =
      .error "AttributeError: object has no attribute upper" ∧
    analyzeML true netTimeout llmNumRisk "persistent mild headache" "English" none true =
      .error "AttributeError: object has no attribute upper" :=
  ⟨rfl, rfl⟩

/-- C4 (amended): on the AI-success path, the single-language pipeline
coerces any AI-returned risk string whose upper-cased form is not in
{LOW, MODERATE, HIGH} to MODERATE; the multi-language pipeline only
upper-cases the AI-returned risk string and returns it outward without
coercion. -/
theorem C4_risk_coercion :
    (∀ (llm : LlmFun) (t : String) (img : Option Bytes) (d : Dict) (s : String),
      ¬ (pyStrip t).length < 5 →
      urgent_keywords_main.filter (fun kw => strContains (pyLower t) kw) = [] →
      llm t img = .returns d →
      containsKey d "error" = false →
      dictGetD d "risk" (.str "MODERATE") = .str s →
      (dictGetD d "doctor_summary" (.str "No detailed summary available")).isStr = true →
      (dictGetD d "advice" (.str "Please consult a medical professional.")).isStr = true →
      valid_risks.contains (pyUpper s) = false →
      riskOf (analyzeMain llm t img) = some "MODERATE") ∧
    (∀ (enabled : Bool) (net : NetFun) (llm : LlmFun) (t lang : String)
      (img : Option Bytes) (d : Dict) (s : String),
      ¬ (pyStrip t).length < 5 →
      urgent_keywords_ml.filter
        (fun kw => strContains (pyLower (mlWorkingText enabled net t lang)) kw) = [] →
      llm (mlWorkingText enabled net t lang) img = .returns d →
      containsKey d "error" = false →
      dictGetD d "risk" (.str "MODERATE") = .str s →
      riskOf (analyzeML enabled net llm t lang img true) = some (pyUpper s)) := by
  constructor
  · intro llm t img d s hlen hfil hllm herr hrisk hdoc hadv hvalid
    rcases isStr_iff.mp hdoc with ⟨ds, hds⟩
    rcases isStr_iff.mp hadv with ⟨as, has⟩
    have hvalid2 : pyUpper s ∉ valid_risks := by
      simpa using hvalid
    simp [analyzeMain, riskOf, hlen, hfil, hllm, herr, hrisk, hds, has,
      pyUpperJ, pyLenJ, hvalid2]
  · intro enabled net llm t lang img d s hlen hfil hllm herr hrisk
    by_cases hl : lang = "English"
    · subst hl
      simp [analyzeML, CONSENT_REQUIRED, riskOf, hlen, hfil, hllm, herr, hrisk,
        pyUpperJ]
    · simp [analyzeML, CONSENT_REQUIRED, riskOf, hlen, hfil, hllm, herr, hrisk,
        pyUpperJ, hl]

/-- Witness for C4: the AI risk string "unknown" is coerced to MODERATE
by the single-language pipeline but emitted as "UNKNOWN" by the
multi-language one. -/
theorem C4_witness :
    riskOf (analyzeMain llmUnknownRisk "persistent mild cough" none) = some "MODERATE" ∧
    riskOf (analyzeML true netTimeout llmUnknownRisk "persistent mild cough" "English" none true) =
      some (pyUpper "unknown") :=
  ⟨C4_risk_coercion.1 llmUnknownRisk "persistent mild cough" none
      [("risk", .str "unknown"), ("doctor_summary", .str "Mild cough reported."),
       ("advice", .str "Rest and hydrate.")] "unknown"
      (by decide) (by decide) rfl (by decide) (by decide) (by decide) (by decide)
      (by decide),
   C4_risk_coercion.2 true netTimeout llmUnknownRisk "persistent mild cough" "English"
      none
      [("risk", .str "unknown"), ("doctor_summary", .str "Mild cough reported."),
       ("advice", .str "Rest and hydrate.")] "unknown"
      (by decide) (by decide) rfl (by decide) (by decide)⟩

/-- Counterexample for C4 as stated: the multi-language pipeline does
not coerce — for the AI risk string "unknown" its outward risk is
"UNKNOWN", which is not MODERATE and lies outside the
{LOW, MODERATE, HIGH, ERROR} enumeration. -/
theorem C4_counterexample :
    riskOf (analyzeML true netTimeout llmUnknownRisk "persistent mild cough" "English" none true) =
      some "UNKNOWN" ∧
    ("UNKNOWN" : String) ≠ "MODERATE" ∧
    ("UNKNOWN" : String) ∉ (["LOW", "MODERATE", "HIGH", "ERROR"] : List String) :=
  ⟨rfl, by decide, by decide⟩

/-- C5 (amended): with consent granted, for every symptom text that
contains none of the multi-language-only urgent phrases ("suicide",
"overdose"), and every AI behaviour that either raises, returns a
structured error, or returns a well-typed result whose upper-cased risk
lies in {LOW, MODERATE, HIGH}, the multi-language pipeline under the
identity translation mock produces the same final risk as the
single-language pipeline on identical symptom text and image. -/
theorem C5_identity_translation_risk_equivalence :
    ∀ (llm : LlmFun) (t lang : String) (img : Option Bytes),
      strContains (pyLower t) "suicide" = false →
      strContains (pyLower t) "overdose" = false →
      benignLlmAt llm t img →
      riskOf (analyzeMain llm t img) =
        riskOf (analyzeML true identityNet llm t lang img true) := by
  intro llm t lang img hsu hov hb
  have hw : mlWorkingText true identityNet t lang = t := mlWorkingText_identity t lang
  by_cases hlen : (pyStrip t).length < 5
  · simp [analyzeMain, analyzeML, CONSENT_REQUIRED, hlen]
  · by_cases hfil : urgent_keywords_main.filter (fun kw => strContains (pyLower t) kw) = []
    · have hfilml : urgent_keywords_ml.filter (fun kw => strContains (pyLower t) kw) = [] := by
        unfold urgent_keywords_ml
        rw [List.filter_append, hfil]
        simp [hsu, hov]
      rcases hb with ⟨m, hm⟩ | ⟨d, hd, herr | hgood⟩
      · by_cases hl : lang = "English"
        · subst hl
          simp [analyzeMain, analyzeML, CONSENT_REQUIRED, riskOf, hlen, hfil, hfilml,
            hw, hm, mlAiErrorResp, aiErrorResp]
        · simp [analyzeMain, analyzeML, CONSENT_REQUIRED, riskOf, hlen, hfil, hfilml,
            hw, hm, hl, mlAiErrorResp, aiErrorResp]
      · by_cases hl : lang = "English"
        · subst hl
          simp [analyzeMain, analyzeML, CONSENT_REQUIRED, riskOf, hlen, hfil, hfilml,
            hw, hd, herr, mlPartialFailureResp]
        · simp [analyzeMain, analyzeML, CONSENT_REQUIRED, riskOf, hlen, hfil, hfilml,
            hw, hd, herr, hl, mlPartialFailureResp]
      · rcases hgood with ⟨herr, ⟨s, hrisk, hvalid⟩, hdoc, hadv⟩
        rcases isStr_iff.mp hdoc with ⟨ds, hds⟩
        rcases isStr_iff.mp hadv with ⟨as, has⟩
        have hvalid2 : pyUpper s ∈ valid_risks := by
          simpa using hvalid
        by_cases hl : lang = "English"
        · subst hl
          simp [analyzeMain, analyzeML, CONSENT_REQUIRED, riskOf, hlen, hfil, hfilml,
            hw, hd, herr, hrisk, hds, has, pyUpperJ, pyLenJ, hvalid2]
        · simp [analyzeMain, analyzeML, CONSENT_REQUIRED, riskOf, hlen, hfil, hfilml,
            hw, hd, herr, hrisk, hds, has, pyUpperJ, pyLenJ, hvalid2, hl]
    · have hex : ∃ x ∈ urgent_keywords_main, strContains (pyLower t) x = true := by
        rcases List.exists_mem_of_ne_nil _ hfil with ⟨y, hy⟩
        rcases List.mem_filter.mp hy with ⟨hy1, hy2⟩
        exact ⟨y, hy1, hy2⟩
      have hexml : ∃ x ∈ urgent_keywords_ml, strContains (pyLower t) x = true := by
        rcases hex with ⟨y, hy1, hy2⟩
        exact ⟨y, List.mem_append_left _ hy1, hy2⟩
      by_cases hl : lang = "English"
      · subst hl
        simp [analyzeMain, analyzeML, CONSENT_REQUIRED, riskOf, hlen, hex, hexml,
          hw, emergencyMainResp]
      · simp [analyzeMain, analyzeML, CONSENT_REQUIRED, riskOf, hlen, hex, hexml,
          hw, hl, emergencyMainResp]

/-- Witness for C5: a benign LOW-risk AI behaviour and a Hindi request
under the identity translation mock give the same risk as the
single-language pipeline. -/
theorem C5_witness :
    riskOf (analyzeMain llmLowRisk "persistent mild cough" none) =
      riskOf (analyzeML true identityNet llmLowRisk "persistent mild cough" "हिंदी" none true) :=
  C5_identity_translation_risk_equivalence llmLowRisk "persistent mild cough" "हिंदी" none
    (by decide) (by decide)
    (Or.inr ⟨[("risk", .str "LOW"), ("doctor_summary", .str "Mild symptoms."),
              ("advice", .str "Rest and hydrate.")], rfl,
      Or.inr ⟨by decide, ⟨"LOW", by decide, by decide⟩, by decide, by decide⟩⟩)

/-- Counterexample for C5 as stated: the phrase "overdose" is urgent
only in the multi-language keyword list, so for identical symptom text
and the identity translation mock the single-language pipeline yields
risk LOW (from the AI) while the multi-language pipeline short-circuits
to HIGH — the final risks differ. -/
theorem C5_counterexample :
    riskOf (analyzeMain llmLowRisk "took an accidental overdose of pills" none) =
      some "LOW" ∧
    riskOf (analyzeML true identityNet llmLowRisk "took an accidental overdose of pills"
        "हिंदी" none true) = some "HIGH" ∧
    ("LOW" : String) ≠ "HIGH" :=
  ⟨rfl, rfl, by decide⟩

/-- C7: in the multi-language pipeline, when the user language is not
English and the inbound translation fails (any failure shape, including
a non-2xx provider response), the working symptom text is the original
untranslated text, and — for an AI behaviour that returns a well-formed
result — the pipeline still reaches a terminal outcome whose status is
`success` or `emergency_detected`; the translation failure never aborts
the pipeline. -/
theorem C7_translation_failure_fallback :
    (∀ (enabled : Bool) (net : NetFun) (t lang : String),
      lang ≠ "English" →
      (translate_to_english enabled net t lang).success = false →
      mlWorkingText enabled net t lang = t) ∧
    (∀ (enabled : Bool) (net : NetFun) (llm : LlmFun) (t lang : String)
      (img : Option Bytes) (d : Dict),
      lang ≠ "English" →
      (translate_to_english enabled net t lang).success = false →
      ¬ (pyStrip t).length < 5 →
      llm t img = .returns d →
      containsKey d "error" = false →
      (dictGetD d "risk" (.str "MODERATE")).isStr = true →
      ∃ st, statusOf (analyzeML enabled net llm t lang img true) = some st ∧
        (st = "success" ∨ st = "emergency_detected")) := by
  constructor
  · intro enabled net t lang hlang hfail
    exact mlWorkingText_of_failure hlang hfail
  · intro enabled net llm t lang img d hlang hfail hlen hllm herr hrisk
    have hw : mlWorkingText enabled net t lang = t :=
      mlWorkingText_of_failure hlang hfail
    rcases isStr_iff.mp hrisk with ⟨s, hs⟩
    by_cases hfil : urgent_keywords_ml.filter (fun kw => strContains (pyLower t) kw) = []
    · refine ⟨"success", ?_, Or.inl rfl⟩
      simp [analyzeML, CONSENT_REQUIRED, statusOf, hlen, hfil, hw, hllm, herr, hs,
        pyUpperJ, hlang]
    · have hex : ∃ x ∈ urgent_keywords_ml, strContains (pyLower t) x = true := by
        rcases List.exists_mem_of_ne_nil _ hfil with ⟨y, hy⟩
        rcases List.mem_filter.mp hy with ⟨hy1, hy2⟩
        exact ⟨y, hy1, hy2⟩
      refine ⟨"emergency_detected", ?_, Or.inr rfl⟩
      simp [analyzeML, CONSENT_REQUIRED, statusOf, hlen, hex, hw, hlang]

/-- Witness for C7: a Hindi request whose inbound translation gets a 503
falls back to the original text and completes with status `success`. -/
theorem C7_witness :
    mlWorkingText true net503 "bukhar aur khansi hai" "हिंदी" = "bukhar aur khansi hai" ∧
    ∃ st, statusOf (analyzeML true net503 llmLowRisk "bukhar aur khansi hai" "हिंदी" none true) =
        some st ∧ (st = "success" ∨ st = "emergency_detected") :=
  ⟨C7_translation_failure_fallback.1 true net503 "bukhar aur khansi hai" "हिंदी"
      (by decide) (by decide),
   C7_translation_failure_fallback.2 true net503 llmLowRisk "bukhar aur khansi hai" "हिंदी"
      none
      [("risk", .str "LOW"), ("doctor_summary", .str "Mild symptoms."),
       ("advice", .str "Rest and hydrate.")]
      (by decide) (by decide) (by decide) rfl (by decide) (by decide)⟩

/-- C6: the translation adapter's `translate` never raises past its
boundary (it is a total function into `TransResult`); when the service
is not configured it returns the "not configured" failure result
independently of the network (no network call), and each of the three
network failure modes — timeout, non-2xx status, unexpected exception —
yields `success = false` with the original input text carried unchanged. -/
theorem C6_translate_failure_modes :
    (∀ (net net2 : NetFun) (text sl tl : String),
      translate false net text sl tl =
        { success := false, error := some "Translation service not configured",
          original_text := text } ∧
      translate false net text sl tl = translate false net2 text sl tl) ∧
    (∀ (enabled : Bool) (net : NetFun) (text sl tl : String),
      net text sl tl = .timeout →
      (translate enabled net text sl tl).success = false ∧
      (translate enabled net text sl tl).original_text = text) ∧
    (∀ (enabled : Bool) (net : NetFun) (text sl tl m : String),
      net text sl tl = .exc m →
      (translate enabled net text sl tl).success = false ∧
      (translate enabled net text sl tl).original_text = text) ∧
    (∀ (enabled : Bool) (net : NetFun) (text sl tl : String) (st : Nat)
      (bt bd : Option String) (raw : String),
      net text sl tl = .response st bt bd raw → st ≠ 200 →
      (translate enabled net text sl tl).success = false ∧
      (translate enabled net text sl tl).original_text = text) := by
  refine ⟨?_, ?_, ?_, ?_⟩
  · intro net net2 text sl tl
    constructor <;> simp [translate]
  · intro enabled net text sl tl h
    cases enabled <;> simp [translate, h]
  · intro enabled net text sl tl m h
    cases enabled <;> simp [translate, h]
  · intro enabled net text sl tl st bt bd raw h hst
    cases enabled <;> simp [translate, h, hst]

/-- Witness for C6 at concrete inputs: a timeout, a 503 response and a
disabled service all produce `success = false` preserving the text. -/
theorem C6_witness :
    ((translate true netTimeout "hello" "hi-IN" "en-IN").success = false ∧
      (translate true netTimeout "hello" "hi-IN" "en-IN").original_text = "hello") ∧
    ((translate true net503 "hello" "hi-IN" "en-IN").success = false ∧
      (translate true net503 "hello" "hi-IN" "en-IN").original_text = "hello") ∧
    ((translate true netTimeout "boom" "hi-IN" "en-IN").success = false ∧
      (translate true netTimeout "boom" "hi-IN" "en-IN").original_text = "boom") ∧
    translate false netTimeout "hello" "hi-IN" "en-IN" =
      { success := false, error := some "Translation service not configured",
        original_text := "hello" } :=
  ⟨C6_translate_failure_modes.2.1 true netTimeout "hello" "hi-IN" "en-IN" rfl,
   C6_translate_failure_modes.2.2.2 true net503 "hello" "hi-IN" "en-IN" 503 none none
     "Service Unavailable" rfl (by decide),
   C6_translate_failure_modes.2.1 true netTimeout "boom" "hi-IN" "en-IN" rfl,
   (C6_translate_failure_modes.1 netTimeout net503 "hello" "hi-IN" "en-IN").1⟩

/-- C8: `call_llm` never raises past its boundary (it is total into
`Dict`) and returns a discriminated outcome on every path: a raised
transport/provider exception becomes an error dict carrying the
exception class name and message, an empty/None response body becomes
the "Empty response from AI" error dict, a non-parseable body becomes a
parse-failure error dict carrying the raw body truncated to 500
characters, and a parsed body is returned as-is. -/
theorem C8_call_llm_outcomes :
    (∀ (parse : String → Except String Dict) (n m s : String) (i : Option Bytes),
      call_llm parse (.raises n m) s i =
        [("error", .str "Failed to fetch the details"), ("raw_error", .str m),
         ("exception_type", .str n)]) ∧
    (∀ (parse : String → Except String Dict) (s : String) (i : Option Bytes)
      (txt : Option String),
      textFalsy txt = true →
      call_llm parse (.ok txt) s i =
        [("error", .str "Empty response from AI"),
         ("raw_error", .str "Response text was empty or None")]) ∧
    (∀ (parse : String → Except String Dict) (s : String) (i : Option Bytes)
      (body e : String),
      body ≠ "" → parse body = .error e →
      call_llm parse (.ok (some body)) s i =
        [("error", .str "Failed to parse AI response as JSON"),
         ("raw_error", .str e), ("raw_text", .str (body.take 500))]) ∧
    (∀ (parse : String → Except String Dict) (s : String) (i : Option Bytes)
      (body : String) (d : Dict),
      body ≠ "" → parse body = .ok d →
      call_llm parse (.ok (some body)) s i = d) := by
  refine ⟨?_, ?_, ?_, ?_⟩
  · intro parse n m s i
    simp [call_llm]
  · intro parse s i txt h
    simp [call_llm, h]
  · intro parse s i body e hb hp
    simp [call_llm, textFalsy, hb, hp]
  · intro parse s i body d hb hp
    simp [call_llm, textFalsy, hb, hp]

/-- Witness for C8 at concrete inputs: a raised exception, a `None`
body, an empty-string body, and a non-parseable body. -/
theorem C8_witness :
    call_llm (fun _ => .error "Expecting value") (.raises "ConnectionError" "refused")
        "fever" none =
      [("error", .str "Failed to fetch the details"), ("raw_error", .str "refused"),
       ("exception_type", .str "ConnectionError")] ∧
    call_llm (fun _ => .error "Expecting value") (.ok none) "fever" none =
      [("error", .str "Empty response from AI"),
       ("raw_error", .str "Response text was empty or None")] ∧
    call_llm (fun _ => .error "Expecting value") (.ok (some "")) "fever" none =
      [("error", .str "Empty response from AI"),
       ("raw_error", .str "Response text was empty or None")] ∧
    call_llm (fun _ => .error "Expecting value") (.ok (some "not json")) "fever" none =
      [("error", .str "Failed to parse AI response as JSON"),
       ("raw_error", .str "Expecting value"),
       ("raw_text", .str ((String.mk ("not json".data)).take 500))] :=
  ⟨C8_call_llm_outcomes.1 (fun _ => .error "Expecting value") "ConnectionError"
      "refused" "fever" none,
   C8_call_llm_outcomes.2.1 (fun _ => .error "Expecting value") "fever" none none rfl,
   C8_call_llm_outcomes.2.1 (fun _ => .error "Expecting value") "fever" none
     (some "") (by decide),
   by
    have h := C8_call_llm_outcomes.2.2.1 (fun _ => .error "Expecting value")
      "fever" none "not json" "Expecting value" (by decide) rfl
    simpa using h⟩

/-- C9: translating with the canonical "English" sentinel as source
(`translate_to_english`) or target (`translate_from_english`) returns
the already-successful passthrough result — independent of the network
behaviour and of the configuration flag, i.e. no network call — with
`success = true`, `translated_text` equal to the input unchanged, and
the `skipped` marker set. -/
theorem C9_english_passthrough :
    ∀ (enabled : Bool) (net : NetFun) (text : String),
      translate_to_english enabled net text "English" = englishPassthrough text ∧
      translate_from_english enabled net text "English" = englishPassthrough text ∧
      (englishPassthrough text).success = true ∧
      (englishPassthrough text).translated_text = some text ∧
      (englishPassthrough text).skipped = true := by
  intro enabled net text
  refine ⟨?_, ?_, rfl, rfl, rfl⟩
  · simp [translate_to_english]
  · simp [translate_from_english]

/-- C10: after stripping non-digits, a phone number that does not start
with the country calling code 91 and is exactly 10 digits long is
prefixed with 91, and the destination address is always in the
provider's channel-qualified `whatsapp:+<digits>` format. -/
theorem C10_whatsapp_number_normalization :
    (∀ p : String, pyStartsWith (clean_digits p) "91" = false →
      (clean_digits p).length = 10 →
      format_whatsapp_to p = "whatsapp:+" ++ ("91" ++ clean_digits p)) ∧
    (∀ p : String, ∃ ds : String,
      format_whatsapp_to p = "whatsapp:+" ++ ds ∧ ds.data.all Char.isDigit = true) := by
  have hall : ∀ p : String, (clean_digits p).data.all Char.isDigit = true := by
    intro p
    simp only [clean_digits]
    rw [List.all_eq_true]
    intro c hc
    exact (List.mem_filter.mp hc).2
  constructor
  · intro p h1 h2
    simp [format_whatsapp_to, h1, h2]
  · intro p
    by_cases hs : pyStartsWith (clean_digits p) "91"
    · exact ⟨clean_digits p, by simp [format_whatsapp_to, hs], hall p⟩
    · by_cases hl : (clean_digits p).length = 10
      · refine ⟨"91" ++ clean_digits p, by simp [format_whatsapp_to, hs, hl], ?_⟩
        rw [List.all_eq_true]
        intro c hcm
        rw [String.data_append] at hcm
        rcases List.mem_append.mp hcm with h | h
        · have h91 : ("91" : String).data.all Char.isDigit = true := by decide
          exact List.all_eq_true.mp h91 c h
        · exact List.all_eq_true.mp (hall p) c h
      · exact ⟨clean_digits p, by simp [format_whatsapp_to, hs, hl], hall p⟩

/-- Witness for C10: `"98765 43210"` cleans to the 10-digit
`"9876543210"`, which is prefixed with 91. -/
theorem C10_witness :
    pyStartsWith (clean_digits "98765 43210") "91" = false ∧
    (clean_digits "98765 43210").length = 10 ∧
    format_whatsapp_to "98765 43210" = "whatsapp:+" ++ ("91" ++ clean_digits "98765 43210") :=
  ⟨by decide, by decide,
   C10_whatsapp_number_normalization.1 "98765 43210" (by decide) (by decide)⟩

end Nidaan
